import Mathlib

/-!
Verification of the bootstrap entry point `src/infra/app.py`.

The source is a linear four-statement module:

  env = cdk.Environment(account="940333627479", region="us-east-1")
  app = cdk.App()
  AgentBMCPSStack(app, "AgentBMCPSStack", env=env)
  app.synth()

We embed the data model (environment descriptor, application context,
deployment unit), the module-level run as an event trace, and the external
collaborators (the stack constructor and the synthesis engine) as
parameters that may fail, mirroring Python exception propagation with
`Except`.
-/

namespace cdk

/-- The environment descriptor `cdk.Environment`: a plain record of two
optional string identifiers. Its constructor stores the given values
without validation and without side effects (spec section 4.1: a pure
constructor, no error conditions at construction time). -/
structure Environment where
  account : Option String := none
  region : Option String := none
deriving DecidableEq, Repr

/-- A deployment unit as visible to this bootstrap: a name and the
environment descriptor it was given. The internal resource graph is
opaque to this core and therefore not modelled. -/
structure Stack where
  stackName : String
  env : Environment
deriving DecidableEq, Repr

/-- The application context `cdk.App`: the root container owning the
deployment units registered with it. -/
structure App where
  children : List Stack := []
deriving DecidableEq, Repr

end cdk

/-- Modelled from the spec: the deployment unit constructor
`AgentBMCPSStack`, imported from the repository module
`agent_b_mcp_server_stack`, whose file is not under `src/`. Per the
signature-level contract in the spec (section 6), it accepts an owning
application context, a unique name string and an environment descriptor,
records the name and the descriptor unchanged, registers the unit with the
owning context, and returns the constructed unit. -/
def AgentBMCPSStack (app : cdk.App) (name : String) (env : cdk.Environment) :
    cdk.App × cdk.Stack :=
  let s : cdk.Stack := { stackName := name, env := env }
  ({ children := app.children ++ [s] }, s)

/-- The observable bootstrap steps, recorded in the order the module
executes them. -/
inductive Event where
  | mkEnvironment (account region : Option String)
  | mkApp
  | mkStack (name : String) (env : cdk.Environment)
  | synth
deriving DecidableEq, Repr

/-- The module-level bootstrap sequence of `src/infra/app.py`, with the two
external collaborators abstracted: `stackCtor` (the deployment unit
constructor, which may raise) and `synthFn` (the synthesis engine invoked
by `app.synth()`, which may raise). Statements run in source order; an
exception aborts the remainder of the module, so later events are not
emitted. The returned trace records the steps that actually executed, and
the `Except` value is the outcome at the process boundary. -/
def runBootstrap {Err Output : Type}
    (stackCtor : cdk.App → String → cdk.Environment → Except Err (cdk.App × cdk.Stack))
    (synthFn : cdk.App → Except Err Output)
    (account region : Option String) :
    List Event × Except Err Output :=
  let env : cdk.Environment := { account := account, region := region }
  let app : cdk.App := {}
  match stackCtor app "AgentBMCPSStack" env with
  | Except.error e =>
      ([Event.mkEnvironment account region, Event.mkApp], Except.error e)
  | Except.ok (app2, s) =>
      ([Event.mkEnvironment account region, Event.mkApp,
        Event.mkStack s.stackName s.env, Event.synth],
       synthFn app2)

/-- The deployment unit constructor behaving per its spec contract,
wrapped as a non-raising external call. -/
def specStackCtor {Err : Type} :
    cdk.App → String → cdk.Environment → Except Err (cdk.App × cdk.Stack) :=
  fun app name env => Except.ok (AgentBMCPSStack app name env)

/-- The module run of `src/infra/app.py` with its hard-coded account and
region literals. The process environment map `_procEnv` is an input of the
process (the source imports `os`), but the `os.getenv` path is commented
out in the source, so it is accepted and never consulted. -/
def runModule {Err Output : Type} (synthFn : cdk.App → Except Err Output)
    (_procEnv : String → Option String) : List Event × Except Err Output :=
  runBootstrap specStackCtor synthFn (some "940333627479") (some "us-east-1")

/-- A synthesis engine that succeeds and reports the application context it
was handed, making the state observed at synthesis time inspectable. -/
def okEngine : cdk.App → Except String cdk.App := Except.ok

/-- An empty process environment map. -/
def emptyProcEnv : String → Option String := fun _ => none

/-- The concrete run of the module with a succeeding engine and an empty
process environment. -/
def moduleRun : List Event × Except String cdk.App := runModule okEngine emptyProcEnv

/-- The event trace of the concrete module run. -/
def moduleTrace : List Event := moduleRun.1

/-- The bootstrap step order asserted by the spec: ApplicationContext
first, then EnvironmentDescriptor, then DeploymentUnit, then finalize. -/
def specClaimedOrder (t : List Event) : Prop :=
  ∃ a r n e, t = [Event.mkApp, Event.mkEnvironment a r, Event.mkStack n e, Event.synth]

/-- A deployment unit constructor that always raises, used to exercise the
failure path of the bootstrap. -/
def failingCtor : cdk.App → String → cdk.Environment → Except String (cdk.App × cdk.Stack) :=
  fun _ _ _ => Except.error "construction failed"

/-- C1: the claim asserts the ApplicationContext is constructed before the
EnvironmentDescriptor; in the source the descriptor (line 6) is constructed
before the application context (line 11), so the claimed order fails on the
concrete run: the first event is the descriptor construction and the second
is the context construction. -/
theorem C1_counterexample :
    ¬ specClaimedOrder moduleTrace ∧
    moduleTrace.get? 0 = some (Event.mkEnvironment (some "940333627479") (some "us-east-1")) ∧
    moduleTrace.get? 1 = some Event.mkApp := by
  refine ⟨?_, rfl, rfl⟩
  rintro ⟨a, r, n, e, h⟩
  have h2 := congrArg (fun l => l.get? 1) h
  simp [moduleTrace, moduleRun, runModule, runBootstrap, specStackCtor,
    AgentBMCPSStack] at h2

/-- C1 (amended): the bootstrap constructs exactly one EnvironmentDescriptor,
then exactly one ApplicationContext, then exactly one DeploymentUnit,
followed by exactly one finalize call — the descriptor comes first, the
context second; no step is skipped or duplicated. Stated for every account
and region configuration and every synthesis engine, over the deployment
unit constructor behaving per its contract. -/
theorem C1_bootstrap_order {Output : Type} (sf : cdk.App → Except String Output)
    (a r : Option String) :
    (runBootstrap specStackCtor sf a r).1 =
      [Event.mkEnvironment a r, Event.mkApp,
       Event.mkStack "AgentBMCPSStack" { account := a, region := r }, Event.synth] := by
  simp [runBootstrap, specStackCtor, AgentBMCPSStack]

/-- C2: run with account "940333627479" and region "us-east-1", the module
constructs a DeploymentUnit named "AgentBMCPSStack" whose environment holds
exactly that account and region, and the finalize call occurs exactly once:
the engine is handed a context owning that single unit, and the trace
contains exactly one synth event. -/
theorem C2_scenario1 :
    moduleRun.2 = Except.ok
      { children := [{ stackName := "AgentBMCPSStack",
                       env := { account := some "940333627479", region := some "us-east-1" } }] } ∧
    moduleTrace.count Event.synth = 1 ∧
    Event.mkStack "AgentBMCPSStack"
      { account := some "940333627479", region := some "us-east-1" } ∈ moduleTrace := by
  refine ⟨rfl, rfl, ?_⟩
  simp [moduleTrace, moduleRun, runModule, runBootstrap, specStackCtor, AgentBMCPSStack]

/-- C3: for every (account, region) pair of strings, constructing a
descriptor from the pair and handing it to the deployment unit constructor
yields a unit whose recorded environment is exactly the input pair, with
both strings unchanged. -/
theorem C3_env_passthrough (app : cdk.App) (name a r : String) :
    ((AgentBMCPSStack app name { account := some a, region := some r }).2).env.account
        = some a ∧
    ((AgentBMCPSStack app name { account := some a, region := some r }).2).env.region
        = some r ∧
    ((AgentBMCPSStack app name { account := some a, region := some r }).2).env
        = { account := some a, region := some r } :=
  ⟨rfl, rfl, rfl⟩

/-- C4: the descriptor constructor performs no validation and has no error
conditions: it is a total pure function, and for every pair of arguments
(including empty or missing ones) the resulting descriptor holds exactly
those values. -/
theorem C4_no_validation (a r : Option String) :
    (cdk.Environment.mk a r).account = a ∧ (cdk.Environment.mk a r).region = r :=
  ⟨rfl, rfl⟩

/-- C5: the claim asserts that an empty account and region make construction
fail and keep finalize from being reached; on the model the descriptor
constructor performs no validation and the deployment unit constructor
accepts any descriptor, so with both values empty the run still reaches the
finalize call and terminates successfully. -/
theorem C5_counterexample :
    Event.synth ∈ (runBootstrap specStackCtor okEngine (some "") (some "")).1 ∧
    (runBootstrap specStackCtor okEngine (some "") (some "")).2 =
      Except.ok { children := [{ stackName := "AgentBMCPSStack",
                                 env := { account := some "", region := some "" } }] } := by
  refine ⟨?_, rfl⟩
  simp [runBootstrap, specStackCtor, AgentBMCPSStack]

/-- C5 (amended): if the account or region value is empty or missing,
construction of the EnvironmentDescriptor and of the DeploymentUnit still
succeeds — no validation happens at construction time — the unit records the
values as given, and the finalize call is still reached. -/
theorem C5_empty_still_synthesizes {Output : Type}
    (sf : cdk.App → Except String Output) (a r : Option String)
    (h : a = some "" ∨ a = none ∨ r = some "" ∨ r = none) :
    Event.synth ∈ (runBootstrap specStackCtor sf a r).1 ∧
    (runBootstrap specStackCtor sf a r).2 =
      sf { children := [{ stackName := "AgentBMCPSStack",
                          env := { account := a, region := r } }] } := by
  refine ⟨?_, ?_⟩ <;> simp [runBootstrap, specStackCtor, AgentBMCPSStack]

/-- Witness for C5 (amended) at account = some "" and region = some "". -/
theorem C5_empty_still_synthesizes_witness :
    Event.synth ∈ (runBootstrap specStackCtor okEngine (some "") none).1 ∧
    (runBootstrap specStackCtor okEngine (some "") none).2 =
      okEngine { children := [{ stackName := "AgentBMCPSStack",
                                env := { account := some "", region := none } }] } :=
  C5_empty_still_synthesizes okEngine (some "") none (Or.inl rfl)

/-- C6: the descriptor is never mutated by the bootstrap: for every
configuration, the deployment unit step records exactly the descriptor as
constructed, and the context handed to the synthesis engine holds a unit
whose environment is still exactly that descriptor. -/
theorem C6_descriptor_immutable {Output : Type}
    (sf : cdk.App → Except String Output) (a r : Option String) :
    Event.mkStack "AgentBMCPSStack" { account := a, region := r }
        ∈ (runBootstrap specStackCtor sf a r).1 ∧
    (runBootstrap specStackCtor sf a r).2 =
      sf { children := [{ stackName := "AgentBMCPSStack",
                          env := { account := a, region := r } }] } := by
  refine ⟨?_, ?_⟩ <;> simp [runBootstrap, specStackCtor, AgentBMCPSStack]

/-- C7: no failure is caught, recovered or replaced inside the bootstrap:
the run ends in a given error exactly when either the deployment unit
constructor raised that very error, or it succeeded and the synthesis
engine raised that very error. -/
theorem C7_error_propagation {Err Output : Type}
    (sc : cdk.App → String → cdk.Environment → Except Err (cdk.App × cdk.Stack))
    (sf : cdk.App → Except Err Output) (a r : Option String) (e : Err) :
    (runBootstrap sc sf a r).2 = Except.error e ↔
      (sc {} "AgentBMCPSStack" { account := a, region := r } = Except.error e ∨
       ∃ p, sc {} "AgentBMCPSStack" { account := a, region := r } = Except.ok p ∧
         sf p.1 = Except.error e) := by
  cases h : sc {} "AgentBMCPSStack" { account := a, region := r } with
  | error e2 => simp [runBootstrap, h]
  | ok p => simp [runBootstrap, h]

/-- C8: the behaviour of the module does not depend on the process
environment variables: any two runs that differ only in the process
environment map produce the same trace and the same outcome, because the
account and region are literal constants and the getenv path is disabled. -/
theorem C8_procenv_independent {Err Output : Type}
    (sf : cdk.App → Except Err Output) (p1 p2 : String → Option String) :
    runModule sf p1 = runModule sf p2 := rfl

/-- C9: the bootstrap is deterministic: any two runs with the identical
hard-coded configuration emit the identical event trace and hand the
synthesis engine the identical context — one unit named "AgentBMCPSStack"
with the configured environment — so the rendered outputs are equal
whenever the engine is a function of that input. -/
theorem C9_deterministic {Err Output : Type}
    (sf : cdk.App → Except Err Output) (p1 p2 : String → Option String) :
    (runModule sf p1).1 = (runModule sf p2).1 ∧
    (runModule sf p1).2 = (runModule sf p2).2 ∧
    (runModule sf p1).2 =
      sf { children := [{ stackName := "AgentBMCPSStack",
                          env := { account := some "940333627479",
                                   region := some "us-east-1" } }] } :=
  ⟨rfl, rfl, rfl⟩

/-- C10: if the deployment unit constructor raises, the finalize call on
the application context is never invoked — no synth event occurs — and the
run ends in that error. -/
theorem C10_no_synth_on_ctor_failure {Err Output : Type}
    (sc : cdk.App → String → cdk.Environment → Except Err (cdk.App × cdk.Stack))
    (sf : cdk.App → Except Err Output) (a r : Option String) (e : Err)
    (h : sc {} "AgentBMCPSStack" { account := a, region := r } = Except.error e) :
    Event.synth ∉ (runBootstrap sc sf a r).1 ∧
    (runBootstrap sc sf a r).2 = Except.error e := by
  refine ⟨?_, ?_⟩ <;> simp [runBootstrap, h]

/-- Witness for C10 at the always-raising constructor and the configured
account and region. -/
theorem C10_witness :
    Event.synth ∉ (runBootstrap failingCtor okEngine
      (some "940333627479") (some "us-east-1")).1 ∧
    (runBootstrap failingCtor okEngine (some "940333627479") (some "us-east-1")).2 =
      Except.error "construction failed" :=
  C10_no_synth_on_ctor_failure failingCtor okEngine
    (some "940333627479") (some "us-east-1") "construction failed" rfl
